import Mathlib

/-!
Verification of the chat client implemented in `src/frontend/src/App.jsx`.

The component keeps four pieces of state: a `clientId` string, a list of
`{sender, text}` messages, an `isConnected` flag and an `isTyping` flag.
The logic under verification is:

* the `ws.current.onmessage` handler (lines 42-81), folding inbound socket
  frames into the message list and the typing flag;
* `sendMessage` (lines 116-131), the form submission handler;
* `clearHistory` (lines 134-163), the session-reset action;
* `connectWebSocket` (lines 28-35), guarded socket creation.

JavaScript truthiness tests on `data.content` and `data.error` are modelled
by emptiness/presence tests on `Option String` / `String`.
-/

/-- A chat message, the element type of the React `messages` state. -/
structure Message where
  sender : String
  text : String
deriving DecidableEq, Repr

/-- The assistant sender name used for streamed replies in App.jsx. -/
def profesorCouohChi : String := "Profesor Couoh Chi"

/-- The welcome message installed at mount (line 17) and again after a
successful history clear (line 152). -/
def welcomeMessage : Message :=
  { sender := profesorCouohChi,
    text := "¡Bienvenido al traductor Maya! puedo traducir cualquier frase en cualquier idioma al mayá 🌿" }

/-- Parsed inbound socket frames. `chunk` carries `data.content`, which may be
absent (`none`); `error` carries `data.error`; `other` stands for any parsed
object matching none of the shapes tested by the handler. -/
inductive WsEvent where
  | start
  | chunk (content : Option String)
  | «end»
  | error (msg : String)
  | other
deriving DecidableEq, Repr

/-- Negation of the guard on line 55
(`!lastMessage || lastMessage.sender !== 'Profesor Couoh Chi' || lastMessage.text !== ''`):
true exactly when the last message is an empty assistant message. -/
def isOpenAssistantLast (prevMessages : List Message) : Bool :=
  match prevMessages.getLast? with
  | some lastMessage => lastMessage.sender == profesorCouohChi && lastMessage.text == ""
  | none => false

/-- True exactly when the list is non-empty and its last message was sent by
the assistant: the guard on line 62 of the `chunk` branch. -/
def lastIsAssistant (messages : List Message) : Bool :=
  match messages.getLast? with
  | some lastMessage => lastMessage.sender == profesorCouohChi
  | none => false

/-- Embedding of the `ws.current.onmessage` handler (App.jsx lines 42-81),
acting on the pair (messages, isTyping). Writing index `length - 1` of a copy
of the list is rendered as `dropLast ++ [updated last]`. -/
def onmessage (data : WsEvent) (st : List Message × Bool) : List Message × Bool :=
  let prevMessages := st.1
  let isTyping := st.2
  match data with
  | .start =>
      if isOpenAssistantLast prevMessages then
        (prevMessages, true)
      else
        (prevMessages ++ [{ sender := profesorCouohChi, text := "" }], true)
  | .chunk content =>
      match content with
      | some c =>
          if c = "" then (prevMessages, isTyping)
          else
            match prevMessages.getLast? with
            | some lastMessage =>
                if lastMessage.sender = profesorCouohChi then
                  (prevMessages.dropLast ++
                    [{ sender := lastMessage.sender, text := lastMessage.text ++ c }],
                   isTyping)
                else (prevMessages, isTyping)
            | none => (prevMessages, isTyping)
      | none => (prevMessages, isTyping)
  | .«end» => (prevMessages, false)
  | .error msg =>
      if msg = "" then (prevMessages, isTyping)
      else (prevMessages ++ [{ sender := "System", text := "Error: " ++ msg }], false)
  | .other => (prevMessages, isTyping)

/-- Result of one invocation of the submission handler: the new message list,
the frame sent on the socket (if any) and the new input-field contents. -/
structure SendResult where
  messages : List Message
  sent : Option String
  input : String
deriving DecidableEq, Repr

/-- Embedding of `sendMessage` (App.jsx lines 116-131). `wsOpen` models
`ws.current && ws.current.readyState === WebSocket.OPEN` at the send site. -/
def sendMessage (input : String) (isConnected isTyping wsOpen : Bool)
    (messages : List Message) : SendResult :=
  let textToSend := input.trim
  if textToSend == "" || !isConnected || isTyping then
    { messages := messages, sent := none, input := input }
  else
    { messages := messages ++ [{ sender := "Tú", text := textToSend }],
      sent := if wsOpen then some textToSend else none,
      input := "" }

/-- Outcome of the awaited DELETE call in `clearHistory`: `ok` is a 2xx
response, `notOk` any other response, `networkError` a thrown fetch error. -/
inductive FetchOutcome where
  | ok
  | notOk
  | networkError
deriving DecidableEq, Repr

/-- Client identifiers are minted as `client-${Date.now()}` (lines 13, 142). -/
def mkClientId (t : Nat) : String := "client-" ++ toString t

/-- Embedding of `clearHistory` (App.jsx lines 134-163), returning the new
(clientId, messages) pair. `now` is the `Date.now()` value at the reset. On
success the code sets the list to `[]` and then to `[welcomeMessage]`; the
net effect is `[welcomeMessage]`. -/
def clearHistory (outcome : FetchOutcome) (now : Nat)
    (clientId : String) (messages : List Message) : String × List Message :=
  match outcome with
  | .ok => (mkClientId now, [welcomeMessage])
  | .notOk =>
      (clientId, messages ++ [{ sender := "System", text := "Error al borrar historial." }])
  | .networkError =>
      (clientId, messages ++ [{ sender := "System", text := "Error de conexión." }])

/-- WebSocket readyState constants, as compared on line 30. -/
inductive ReadyState where
  | CONNECTING
  | OPEN
  | CLOSING
  | CLOSED
deriving DecidableEq, Repr

/-- The socket handle held in `ws.current`. -/
structure Conn where
  url : String
  readyState : ReadyState
deriving DecidableEq, Repr

def FASTAPI_BASE_URL : String := "ws://localhost:8000/ws/chat/"

/-- Embedding of `connectWebSocket` (App.jsx lines 28-35): a no-op when the
held socket is OPEN or CONNECTING, otherwise a fresh CONNECTING socket for
the current client id. -/
def connectWebSocket (ws : Option Conn) (clientId : String) : Option Conn :=
  match ws with
  | some c =>
      if c.readyState == ReadyState.OPEN || c.readyState == ReadyState.CONNECTING then ws
      else some { url := FASTAPI_BASE_URL ++ clientId, readyState := ReadyState.CONNECTING }
  | none => some { url := FASTAPI_BASE_URL ++ clientId, readyState := ReadyState.CONNECTING }

/-- The component state relevant to the message-list invariant. -/
structure AppState where
  clientId : String
  messages : List Message
  input : String
  isConnected : Bool
  isTyping : Bool
  wsOpen : Bool
deriving DecidableEq, Repr

/-- One externally triggered state transition of the component: an inbound
socket frame, a socket lifecycle callback, a form submission, or a completed
reset call. -/
inductive Step where
  | sock (e : WsEvent)
  | wsOpened
  | wsClosedEvt
  | wsErrored
  | submit
  | reset (outcome : FetchOutcome) (now : Nat)
deriving DecidableEq, Repr

/-- The effect of each transition on the component state, combining the
embedded handlers: `onmessage`, `onopen` (line 37), `onclose` (line 83),
`onerror` (line 91), `sendMessage`, and `clearHistory`. -/
def applyStep (t : Step) (s : AppState) : AppState :=
  match t with
  | .sock e =>
      let r := onmessage e (s.messages, s.isTyping)
      { s with messages := r.1, isTyping := r.2 }
  | .wsOpened => { s with isConnected := true, wsOpen := true }
  | .wsClosedEvt => { s with isConnected := false, isTyping := false, wsOpen := false }
  | .wsErrored => { s with isConnected := false }
  | .submit =>
      let r := sendMessage s.input s.isConnected s.isTyping s.wsOpen s.messages
      { s with messages := r.messages, input := r.input }
  | .reset outcome now =>
      let r := clearHistory outcome now s.clientId s.messages
      { s with clientId := r.1, messages := r.2 }

/-- `new` extends `old` by appending whole messages at the end, or by
appending text to the last element; no earlier element is modified or
removed. -/
def AppendsOnly (old new : List Message) : Prop :=
  (∃ ts : List Message, new = old ++ ts) ∨
  (∃ (rest : List Message) (m : Message) (t : String),
    old = rest ++ [m] ∧ new = rest ++ [{ sender := m.sender, text := m.text ++ t }])

/-! ### Helper lemmas -/

theorem onmessage_start_not_open (msgs : List Message) (ty : Bool)
    (h : isOpenAssistantLast msgs = false) :
    onmessage .start (msgs, ty)
      = (msgs ++ [{ sender := profesorCouohChi, text := "" }], true) := by
  simp [onmessage, h]

theorem onmessage_chunk_assistant_last (msgs : List Message) (t c : String) (ty : Bool) :
    onmessage (.chunk (some c)) (msgs ++ [{ sender := profesorCouohChi, text := t }], ty)
      = (msgs ++ [{ sender := profesorCouohChi, text := t ++ c }], ty) := by
  by_cases hc : c = ""
  · subst hc; simp [onmessage]
  · simp [onmessage, hc, List.getLast?_concat, List.dropLast_concat]

theorem takeWhileAux_hola :
    Substring.takeWhileAux " hola " ⟨6⟩ Char.isWhitespace ⟨0⟩ = ⟨1⟩ := by
  rw [Substring.takeWhileAux, dif_pos (by decide), if_pos (by decide)]
  rw [show " hola ".next ⟨0⟩ = ⟨1⟩ from rfl]
  rw [Substring.takeWhileAux, dif_pos (by decide), if_neg (by decide)]

theorem takeRightWhileAux_hola :
    Substring.takeRightWhileAux " hola " ⟨1⟩ Char.isWhitespace ⟨6⟩ = ⟨5⟩ := by
  rw [Substring.takeRightWhileAux, dif_pos (by decide)]
  show Substring.takeRightWhileAux " hola " ⟨1⟩ Char.isWhitespace ⟨5⟩ = ⟨5⟩
  rw [Substring.takeRightWhileAux, dif_pos (by decide)]
  rfl

theorem trim_hola : " hola ".trim = "hola" := by
  show Substring.toString ⟨" hola ",
      Substring.takeWhileAux " hola " ⟨6⟩ Char.isWhitespace ⟨0⟩,
      Substring.takeRightWhileAux " hola "
        (Substring.takeWhileAux " hola " ⟨6⟩ Char.isWhitespace ⟨0⟩) Char.isWhitespace ⟨6⟩⟩
    = "hola"
  rw [takeWhileAux_hola, takeRightWhileAux_hola]
  rfl

theorem takeWhileAux_spaces :
    Substring.takeWhileAux "   " ⟨3⟩ Char.isWhitespace ⟨0⟩ = ⟨3⟩ := by
  rw [Substring.takeWhileAux, dif_pos (by decide), if_pos (by decide)]
  rw [show "   ".next ⟨0⟩ = ⟨1⟩ from rfl]
  rw [Substring.takeWhileAux, dif_pos (by decide), if_pos (by decide)]
  rw [show "   ".next ⟨1⟩ = ⟨2⟩ from rfl]
  rw [Substring.takeWhileAux, dif_pos (by decide), if_pos (by decide)]
  rw [show "   ".next ⟨2⟩ = ⟨3⟩ from rfl]
  rw [Substring.takeWhileAux, dif_neg (by decide)]

theorem trim_spaces : "   ".trim = "" := by
  show Substring.toString ⟨"   ",
      Substring.takeWhileAux "   " ⟨3⟩ Char.isWhitespace ⟨0⟩,
      Substring.takeRightWhileAux "   "
        (Substring.takeWhileAux "   " ⟨3⟩ Char.isWhitespace ⟨0⟩) Char.isWhitespace ⟨3⟩⟩
    = ""
  rw [takeWhileAux_spaces]
  rw [Substring.takeRightWhileAux, dif_neg (by decide)]
  rfl

theorem appendsOnly_refl (l : List Message) : AppendsOnly l l :=
  Or.inl ⟨[], by simp⟩

theorem appendsOnly_append (l ts : List Message) : AppendsOnly l (l ++ ts) :=
  Or.inl ⟨ts, rfl⟩

theorem AppendsOnly.length_le {old new : List Message} (h : AppendsOnly old new) :
    old.length ≤ new.length := by
  rcases h with ⟨ts, rfl⟩ | ⟨rest, m, t, rfl, rfl⟩ <;> simp

/-! ### Claim theorems -/

/-- C1: applying `start, chunk(a), chunk(b), end` to any (messages, typing)
state whose message list does not end in an empty assistant message yields
the original list extended with exactly one new assistant message whose text
is `a ++ b`, with the typing flag false. -/
theorem stream_start_chunk_chunk_end (msgs : List Message) (ty : Bool) (a b : String)
    (h : isOpenAssistantLast msgs = false) :
    onmessage .«end» (onmessage (.chunk (some b)) (onmessage (.chunk (some a))
        (onmessage .start (msgs, ty))))
      = (msgs ++ [{ sender := profesorCouohChi, text := a ++ b }], false) := by
  rw [onmessage_start_not_open msgs ty h, onmessage_chunk_assistant_last,
    onmessage_chunk_assistant_last]
  simp [onmessage]

/-- Witness for C1 at the spec example shape: empty list, two fragments. -/
theorem stream_start_chunk_chunk_end_witness :
    isOpenAssistantLast [] = false ∧
    onmessage .«end» (onmessage (.chunk (some "mundo")) (onmessage (.chunk (some "hola "))
        (onmessage .start ([], false))))
      = ([{ sender := profesorCouohChi, text := "hola " ++ "mundo" }], false) :=
  ⟨by decide, stream_start_chunk_chunk_end [] false "hola " "mundo" (by decide)⟩

/-- C2 counterexample: after a completed stream (so with no open stream), a
further `chunk` does NOT leave the message list unchanged — it appends to the
already-completed assistant message, because the guard on line 62 only checks
the sender of the last message. -/
theorem chunk_after_end_appends :
    (onmessage (.chunk (some "!"))
        ([{ sender := profesorCouohChi, text := "hola" }], false)).1
      ≠ [{ sender := profesorCouohChi, text := "hola" }] := by
  decide

/-- C2 (amended): a `chunk` event with no preceding `start` leaves the
message list unchanged only when the list is empty or its last message was
not sent by the assistant; when the last message is assistant-sent (e.g. a
reply already closed by `end`, or the welcome message), a non-empty chunk
appends to it instead. This theorem proves the unchanged half. -/
theorem chunk_without_assistant_last (c : Option String) (msgs : List Message) (ty : Bool)
    (h : lastIsAssistant msgs = false) :
    onmessage (.chunk c) (msgs, ty) = (msgs, ty) := by
  cases c with
  | none => rfl
  | some s =>
    by_cases hs : s = ""
    · simp [onmessage, hs]
    · unfold lastIsAssistant at h
      cases hm : msgs.getLast? with
      | none => simp [onmessage, hs, hm]
      | some m =>
        rw [hm] at h
        simp only [beq_eq_false_iff_ne, ne_eq] at h
        simp [onmessage, hs, hm, h]

/-- Witness for C2 (amended): a chunk arriving when the last message is the
user's is dropped. -/
theorem chunk_without_assistant_last_witness :
    lastIsAssistant [{ sender := "Tú", text := "hola" }] = false ∧
    onmessage (.chunk (some "x")) ([{ sender := "Tú", text := "hola" }], false)
      = ([{ sender := "Tú", text := "hola" }], false) :=
  ⟨by decide,
    chunk_without_assistant_last (some "x") [{ sender := "Tú", text := "hola" }] false
      (by decide)⟩

/-- C10: a `chunk` whose content is absent or the empty string (falsy in JS)
leaves the state unchanged, even when an open assistant message is last. -/
theorem empty_chunk_noop (c : Option String) (msgs : List Message) (ty : Bool)
    (h : c = none ∨ c = some "") :
    onmessage (.chunk c) (msgs, ty) = (msgs, ty) := by
  rcases h with rfl | rfl
  · rfl
  · simp [onmessage]

/-- Witness for C10: an empty chunk is a no-op even on an assistant-last
list (the welcome message). -/
theorem empty_chunk_noop_witness :
    onmessage (.chunk (some "")) ([welcomeMessage], true) = ([welcomeMessage], true) :=
  empty_chunk_noop (some "") [welcomeMessage] true (Or.inr rfl)

/-- C3: under the single-threaded coupling that the connected flag mirrors an
OPEN socket, submission is a no-op (same list, nothing sent, input kept) when
the trimmed input is empty, the connection is down, or a stream is typing;
otherwise it appends exactly one user message with the trimmed text, sends
that text, and clears the input field. -/
theorem sendMessage_spec (input : String) (isConnected isTyping wsOpen : Bool)
    (msgs : List Message) (hcoupled : wsOpen = isConnected) :
    (input.trim = "" ∨ isConnected = false ∨ isTyping = true →
      sendMessage input isConnected isTyping wsOpen msgs
        = { messages := msgs, sent := none, input := input }) ∧
    (input.trim ≠ "" → isConnected = true → isTyping = false →
      sendMessage input isConnected isTyping wsOpen msgs
        = { messages := msgs ++ [{ sender := "Tú", text := input.trim }],
            sent := some input.trim, input := "" }) := by
  subst hcoupled
  constructor
  · rintro (h | h | h) <;> simp [sendMessage, h]
  · intro h1 h2 h3
    simp [sendMessage, h1, h2, h3]

/-- Witness for C3: a blank-after-trim input of spaces is rejected, and a
valid submission appends and sends the trimmed text. -/
theorem sendMessage_spec_witness :
    sendMessage "   " true false true [] = { messages := [], sent := none, input := "   " } ∧
    sendMessage " hola " true false true []
      = { messages := [{ sender := "Tú", text := " hola ".trim }],
          sent := some " hola ".trim, input := "" } :=
  ⟨(sendMessage_spec "   " true false true [] rfl).1 (Or.inl trim_spaces),
    (sendMessage_spec " hola " true false true [] rfl).2 (by rw [trim_hola]; decide) rfl rfl⟩

/-- C4: when the DELETE call fails (non-2xx or network error), the client id
is unchanged, the list grows by exactly one, and the new list is the old one
with a single System-sender error message appended. -/
theorem clearHistory_failure (outcome : FetchOutcome) (now : Nat)
    (clientId : String) (msgs : List Message) (h : outcome ≠ FetchOutcome.ok) :
    (clearHistory outcome now clientId msgs).1 = clientId ∧
    (clearHistory outcome now clientId msgs).2.length = msgs.length + 1 ∧
    ∃ e : String,
      (clearHistory outcome now clientId msgs).2
        = msgs ++ [{ sender := "System", text := e }] := by
  cases outcome with
  | ok => exact absurd rfl h
  | notOk => exact ⟨rfl, by simp [clearHistory], "Error al borrar historial.", rfl⟩
  | networkError => exact ⟨rfl, by simp [clearHistory], "Error de conexión.", rfl⟩

/-- Witness for C4: a non-2xx response appends one System message and keeps
the client id. -/
theorem clearHistory_failure_witness :
    (clearHistory FetchOutcome.notOk 7 (mkClientId 0) [welcomeMessage]).1 = mkClientId 0 ∧
    (clearHistory FetchOutcome.notOk 7 (mkClientId 0) [welcomeMessage]).2.length
      = [welcomeMessage].length + 1 ∧
    ∃ e : String,
      (clearHistory FetchOutcome.notOk 7 (mkClientId 0) [welcomeMessage]).2
        = [welcomeMessage] ++ [{ sender := "System", text := e }] :=
  clearHistory_failure FetchOutcome.notOk 7 (mkClientId 0) [welcomeMessage] (by decide)

/-- C5 counterexample: the new client id is `client-${Date.now()}`; a reset
in the same millisecond as the one that minted the previous id reproduces
the previous id, so the new identifier does NOT always differ. -/
theorem clearHistory_same_millis_same_id :
    (clearHistory FetchOutcome.ok 5 (mkClientId 5) [welcomeMessage]).1 = mkClientId 5 := rfl

/-- C5 (amended): after a successful reset the message list is exactly the
single welcome message, and the new client id differs from the previous one
provided the current timestamp mints a different identifier than the
previous one. -/
theorem clearHistory_success (now : Nat) (clientId : String) (msgs : List Message)
    (h : clientId ≠ mkClientId now) :
    (clearHistory FetchOutcome.ok now clientId msgs).2 = [welcomeMessage] ∧
    (clearHistory FetchOutcome.ok now clientId msgs).1 ≠ clientId := by
  refine ⟨rfl, ?_⟩
  intro hc
  exact h (by simpa [clearHistory] using hc.symm)

/-- Witness for C5 (amended): resetting at a later millisecond yields the
fresh welcome list and a changed id. -/
theorem clearHistory_success_witness :
    mkClientId 0 ≠ mkClientId 1 ∧
    (clearHistory FetchOutcome.ok 1 (mkClientId 0) [welcomeMessage]).2 = [welcomeMessage] ∧
    (clearHistory FetchOutcome.ok 1 (mkClientId 0) [welcomeMessage]).1 ≠ mkClientId 0 :=
  ⟨by decide, clearHistory_success 1 (mkClientId 0) [welcomeMessage] (by decide)⟩

/-- C6: an error frame with non-empty text ends typing and appends exactly
one System-sender message carrying the error text, leaving prior messages
unchanged. -/
theorem error_event_appends_system (e : String) (msgs : List Message) (ty : Bool)
    (h : e ≠ "") :
    onmessage (.error e) (msgs, ty)
      = (msgs ++ [{ sender := "System", text := "Error: " ++ e }], false) := by
  simp [onmessage, h]

/-- Witness for C6 at a concrete error text. -/
theorem error_event_appends_system_witness :
    onmessage (.error "boom") ([welcomeMessage], true)
      = ([welcomeMessage] ++ [{ sender := "System", text := "Error: " ++ "boom" }], false) :=
  error_event_appends_system "boom" [welcomeMessage] true (by decide)

/-- C7 counterexample: the frame `{"error": ""}` is an error event by the
protocol shape, yet it leaves the typing flag streaming, because the empty
string is falsy in the `else if (data.error)` test on line 72. -/
theorem empty_error_keeps_typing :
    (onmessage (.error "") ([], true)).2 = true := rfl

/-- C7 (amended): the typing flag follows the state machine `start → true`,
`end → false`, `error(e) with e nonempty → false`; an error with empty text,
any chunk, and any unrecognised frame leave it unchanged; and `end` never
alters message content. -/
theorem typing_state_machine (msgs : List Message) (ty : Bool) :
    (onmessage .start (msgs, ty)).2 = true ∧
    onmessage .«end» (msgs, ty) = (msgs, false) ∧
    (∀ e : String, e ≠ "" → (onmessage (.error e) (msgs, ty)).2 = false) ∧
    (onmessage (.error "") (msgs, ty)).2 = ty ∧
    (∀ c : Option String, (onmessage (.chunk c) (msgs, ty)).2 = ty) ∧
    (onmessage .other (msgs, ty)).2 = ty := by
  refine ⟨?_, rfl, ?_, rfl, ?_, rfl⟩
  · by_cases h : isOpenAssistantLast msgs <;> simp [onmessage, h]
  · intro e he
    simp [onmessage, he]
  · intro c
    cases c with
    | none => rfl
    | some s =>
      by_cases hs : s = ""
      · simp [onmessage, hs]
      · cases hm : msgs.getLast? with
        | none => simp [onmessage, hs, hm]
        | some m =>
          by_cases hsen : m.sender = profesorCouohChi <;> simp [onmessage, hs, hm, hsen]

/-- Witness for C7 (amended): a non-empty error frame ends typing. -/
theorem typing_state_machine_witness :
    (onmessage (.error "x") ([], true)).2 = false :=
  (typing_state_machine [] true).2.2.1 "x" (by decide)

theorem onmessage_appendsOnly (e : WsEvent) (msgs : List Message) (ty : Bool) :
    AppendsOnly msgs (onmessage e (msgs, ty)).1 := by
  cases e with
  | start =>
    by_cases h : isOpenAssistantLast msgs <;> simp [onmessage, h]
    · exact appendsOnly_refl msgs
    · exact appendsOnly_append msgs _
  | chunk content =>
    cases content with
    | none => exact appendsOnly_refl msgs
    | some c =>
      by_cases hc : c = ""
      · simp [onmessage, hc]; exact appendsOnly_refl msgs
      · cases hm : msgs.getLast? with
        | none => simp [onmessage, hc, hm]; exact appendsOnly_refl msgs
        | some m =>
          by_cases hsen : m.sender = profesorCouohChi
          · rcases List.getLast?_eq_some_iff.mp hm with ⟨ys, rfl⟩
            right
            refine ⟨ys, m, c, rfl, ?_⟩
            simp [onmessage, hc, hsen, List.getLast?_concat, List.dropLast_concat]
          · simp [onmessage, hc, hm, hsen]; exact appendsOnly_refl msgs
  | «end» => exact appendsOnly_refl msgs
  | error msg =>
    by_cases hmsg : msg = ""
    · simp [onmessage, hmsg]; exact appendsOnly_refl msgs
    · simp [onmessage, hmsg]; exact appendsOnly_append msgs _
  | other => exact appendsOnly_refl msgs

/-- C8 (amended): every socket frame, socket lifecycle callback, submission,
and failed reset either leaves the message list unchanged, appends whole
messages at the end, or appends text to the last element — it never modifies
or removes an earlier element; a successful reset is the exception, replacing
the whole list with the single welcome message. Since only the last element
ever accepts fragment appends, at most one assistant message is open and it
is always last. -/
theorem messages_append_only (s : AppState) (t : Step)
    (h : ∀ now : Nat, t ≠ Step.reset FetchOutcome.ok now) :
    AppendsOnly s.messages (applyStep t s).messages := by
  cases t with
  | sock e => exact onmessage_appendsOnly e s.messages s.isTyping
  | wsOpened => exact appendsOnly_refl s.messages
  | wsClosedEvt => exact appendsOnly_refl s.messages
  | wsErrored => exact appendsOnly_refl s.messages
  | submit =>
    show AppendsOnly s.messages
      (sendMessage s.input s.isConnected s.isTyping s.wsOpen s.messages).messages
    unfold sendMessage
    by_cases hcond :
        (s.input.trim == "" || !s.isConnected || s.isTyping) = true
    · simp only [hcond, if_true]
      exact appendsOnly_refl s.messages
    · simp only [hcond, if_false, Bool.false_eq_true]
      exact appendsOnly_append s.messages _
  | reset outcome now =>
    cases outcome with
    | ok => exact absurd rfl (h now)
    | notOk => exact appendsOnly_append s.messages _
    | networkError => exact appendsOnly_append s.messages _

/-- Witness for C8 (amended): an error frame on a concrete state appends. -/
theorem messages_append_only_witness :
    AppendsOnly [welcomeMessage]
      (applyStep (Step.sock (WsEvent.error "boom"))
        { clientId := mkClientId 0, messages := [welcomeMessage], input := "",
          isConnected := true, isTyping := true, wsOpen := true }).messages :=
  messages_append_only
    { clientId := mkClientId 0, messages := [welcomeMessage], input := "",
      isConnected := true, isTyping := true, wsOpen := true }
    (Step.sock (WsEvent.error "boom"))
    (fun _ hh => Step.noConfusion hh)

/-- C8 counterexample: a successful reset from a two-message state replaces
the list with the single welcome message, removing earlier elements — the
transition is not append-only. -/
theorem reset_success_not_append_only :
    ¬ AppendsOnly [welcomeMessage, { sender := "Tú", text := "hola" }]
      (applyStep (Step.reset FetchOutcome.ok 1)
        { clientId := mkClientId 0,
          messages := [welcomeMessage, { sender := "Tú", text := "hola" }],
          input := "", isConnected := true, isTyping := false, wsOpen := true }).messages := by
  intro h
  have hlen := h.length_le
  simp [applyStep, clearHistory] at hlen

/-- C9: when the held socket is OPEN or CONNECTING for the current client id,
`connectWebSocket` returns the handle unchanged — no second connection is
created. -/
theorem connectWebSocket_noop (ws : Option Conn) (c : Conn) (clientId : String)
    (hws : ws = some c)
    (_hurl : c.url = FASTAPI_BASE_URL ++ clientId)
    (hstate : c.readyState = ReadyState.OPEN ∨ c.readyState = ReadyState.CONNECTING) :
    connectWebSocket ws clientId = ws := by
  subst hws
  rcases hstate with h | h <;> simp [connectWebSocket, h]

/-- Witness for C9 at a concrete OPEN connection. -/
theorem connectWebSocket_noop_witness :
    connectWebSocket
        (some { url := FASTAPI_BASE_URL ++ mkClientId 0, readyState := ReadyState.OPEN })
        (mkClientId 0)
      = some { url := FASTAPI_BASE_URL ++ mkClientId 0, readyState := ReadyState.OPEN } :=
  connectWebSocket_noop _ _ (mkClientId 0) rfl rfl (Or.inl rfl)
